import Mathlib
set_option maxRecDepth 40000

/-!
Verification of the ReLeather webhook inquiry-classification engine
(`src/app.py`) against its natural-language specification.

The webhook handler is shallowly embedded: the field-extraction helper
`get_question_value` and the raising parts of extraction are modelled over a
`Value` type mirroring the JSON-ish question values (fallible steps return
`Except`), and the post-extraction classification pipeline (geo
classification, the eight ordered critical rules, the five response blocks
and the assembled template) is modelled as total functions over the
normalized string-typed fields, exactly following the source's conditionals
and literal texts.
-/

namespace ReLeather

/-- Occurrence of `pat` as a contiguous run inside `s` (character lists). -/
def subSearch (pat s : List Char) : Bool :=
  match s with
  | [] => pat.isEmpty
  | _ :: rest => pat.isPrefixOf s || subSearch pat rest

/-- Python's `pat in s` substring test, used by the keyword critical rules. -/
def strContains (s pat : String) : Bool :=
  subSearch pat.data s.data

/-- Whitespace characters removed by Python's `str.strip()`. -/
def isPySpace (c : Char) : Bool :=
  c = ' ' || c = '\t' || c = '\n' || c = '\r' || c = '\x0b' || c = '\x0c'

/-- Model of Python `str.strip()`. -/
def pyStrip (s : String) : String :=
  ⟨((s.data.dropWhile isPySpace).reverse.dropWhile isPySpace).reverse⟩

/-- Model of Python `str.lower()` (ASCII letters). -/
def lowerStr (s : String) : String :=
  ⟨s.data.map Char.toLower⟩

/-- Digit run of a Python integer literal body: decimal digits with single
underscores allowed between digits (`int("9_0")` parses in Python). -/
def digitsCore : Nat → List Char → Option Nat
  | acc, [] => some acc
  | acc, c :: rest =>
    if c.isDigit then digitsCore (acc * 10 + (c.toNat - 48)) rest
    else if c = '_' then
      match rest with
      | d :: rest2 =>
        if d.isDigit then digitsCore (acc * 10 + (d.toNat - 48)) rest2 else none
      | [] => none
    else none

/-- Parse a nonempty all-digit run (with optional grouping underscores). -/
def pyIntDigits : List Char → Option Nat
  | [] => none
  | c :: rest => if c.isDigit then digitsCore (c.toNat - 48) rest else none

/-- Model of Python `int(s)` on ASCII decimal strings: surrounding
whitespace stripped, optional sign, digits (with grouping underscores);
`none` models the `ValueError` the source catches. -/
def pyParseInt (s : String) : Option Int :=
  match (pyStrip s).data with
  | '+' :: rest => (pyIntDigits rest).map Int.ofNat
  | '-' :: rest => (pyIntDigits rest).map (fun n => -(Int.ofNat n))
  | t => (pyIntDigits t).map Int.ofNat

/-- `zip_code` from `zip_code_str` (src/app.py lines 219-224): an empty
string is falsy and skipped; a failed `int(...)` is caught, leaving `None`. -/
def parseZip (s : String) : Option Int :=
  if s = "" then none else pyParseInt s

/-- `is_out_of_state` (src/app.py lines 226-229): `False` when no ZIP was
parsed, else true iff the ZIP lies outside [90000, 92899]. -/
def isOutOfState : Option Int → Bool
  | none => false
  | some z => !(decide (90000 ≤ z ∧ z ≤ 92899))

/-- The positive in-service-area test as used at src/app.py line 580:
`zip_code is not None and 90000 <= zip_code <= 92899`. -/
def inServiceArea : Option Int → Bool
  | none => false
  | some z => decide (90000 ≤ z ∧ z ≤ 92899)

/-- `county_name` (src/app.py lines 231-248): ordered first-match-wins
range table; empty string when no ZIP was parsed or no range matches. -/
def countyName : Option Int → String
  | none => ""
  | some z =>
    if (90000 ≤ z ∧ z ≤ 90299) ∨ (90700 ≤ z ∧ z ≤ 90899) ∨
       (91000 ≤ z ∧ z ≤ 91899) ∨ (93500 ≤ z ∧ z ≤ 93599) then
      "Los Angeles County"
    else if 92000 ≤ z ∧ z ≤ 92199 then "San Diego County"
    else if 92500 ≤ z ∧ z ≤ 92599 then "Riverside County"
    else if (92300 ≤ z ∧ z ≤ 92499) ∨ (92857 ≤ z ∧ z ≤ 92859) then
      "San Bernardino County"
    else if 93000 ≤ z ∧ z ≤ 93099 then "Ventura County"
    else if 92600 ≤ z ∧ z ≤ 92899 then "Orange County"
    else if 92200 ≤ z ∧ z ≤ 92299 then "Imperial County"
    else if 93100 ≤ z ∧ z ≤ 93199 then "Santa Barbara County"
    else ""

/-! ### Normalized fields and the classification pipeline

`Fields` is the spec's `NormalizedFields`: the string-typed field set the
webhook handler works with after extraction (src/app.py lines 174-229). -/

structure Fields where
  firstName : String
  email : String
  serviceType : String
  itemType : String
  colorSelection : String
  cushionMode : String
  numSofas : Nat
  numChairs : Nat
  numCushions : Nat
  furtherDetails : String
  anyFilesUploaded : Bool
  zip : Option Int

/-- `full_text_data` (src/app.py line 250): lowercase concatenation of
service type, item type and further details, space-separated (for a string
`s`, Python's `s or ''` is `s` itself). -/
def fullTextData (f : Fields) : String :=
  lowerStr (f.serviceType ++ " " ++ f.itemType ++ " " ++ f.furtherDetails)

/-- `plural_item_type` (src/app.py lines 200-217). -/
def pluralItemType (item : String) (nSofas nChairs nCushions : Nat) : String :=
  if item = "" then item
  else
    let total := nSofas + nChairs + nCushions
    if total > 1 then
      let l := lowerStr item
      if l = "sofa" then "sofas"
      else if l = "chair" then "chairs"
      else if l = "cushion" then "cushions"
      else if l = "bag" then "bags"
      else if l = "coat" then "coats"
      else if l = "car" then "cars"
      else item ++ "s"
    else if total = 1 then item
    else if ["bag", "coat", "car"].contains (lowerStr item) then item ++ "s"
    else item

/-- Shared tail of the rule-1 and rule-4/5 responses (the three-bullet
options list, src/app.py lines 265-269 and 340-344). -/
def optionsBullets : String :=
  "However, we’re happy to offer the following options that may support your project:\n\n• If you are sourcing leather for your own furniture project, we recommend visiting [https://www.releather.com/leather-for-upholstery](https://www.releather.com/leather-for-upholstery) for a wide selection of premium hides.\n• If you\x27re considering replacing your piece, you can explore our collection of American-made quality leather furniture at: [leathera.com/furniture](https://leathera.com/furniture)\n• For ongoing care of your leather, we offer a gentle, high-quality leather conditioner suitable for most leather types. You can find it here: [releather.com/leather-conditioner](https://releather.com/leather-conditioner)"

/-- Rule 1 response body (src/app.py lines 259-269). -/
def bondedBody (firstName : String) : String :=
  "Hi " ++ firstName ++ ",\n\nThank you for your interest in ReLeather.\n\nBased on the pictures, your furniture appears to be upholstered in bonded, faux, or split leather. Unfortunately, we do not treat, repair, or reupholster this type of material. If you’re looking for more information about bonded leather, check out our informational blog post: https://www.releather.com/what-is-bonded-leather\n\n" ++ optionsBullets

/-- Rule 2 response body (src/app.py lines 286-294). -/
def lowGradeBody (firstName : String) : String :=
  "Hi " ++ firstName ++ ",\n\nThank you for your interest in ReLeather.\n\nBased on your photos and the information provided, this type of leather has a surface-level color coating rather than being dyed through. Our color restoration process is limited to reapplying color as it was originally manufactured. While the treatment is surface-level, we apply a thorough foundation layer to improve durability. The leather will still wear according to the natural characteristics of this material. As a result, we cannot offer our service guarantee for this type of leather.\n\nAs an alternative, we can offer Leather Reupholstery. Our Full Leather Upholstery service replacing all upholstery with new leather of your choice. We offer a wide selection of colors, textures, and finishes. If only certain cushions or sections are being replaced, our Partial Leather Upholstery service recovers damaged leather with closely matching leather. This requires purchasing new leather and disassembly of the upholstery.\n\nPlease contact if you would like to move forward with an appointment. Thank you."

/-- Rule 3 response body (src/app.py lines 310-316). -/
def noFilesBody (firstName serviceType itemType : String) : String :=
  "Hi " ++ firstName ++ ",\n\nThank you for your interest in ReLeather.\n\nWe’d be happy to look into " ++ serviceType ++ " for your " ++ itemType ++ ". To provide accurate recommendations and pricing, please send us a few photos and any additional details you can share. If available, you may also share the dimensions. We’ll follow up as soon as we receive them.\n\nThank you!"

/-- Rule 4 response body (src/app.py lines 334-344). -/
def outOfStateFixedBody (firstName : String) : String :=
  "Hi " ++ firstName ++ ",\n\nThank you for your interest in ReLeather.\n\nPlease note that we are located in Southern California, and unfortunately, large and fixed seating upholstery services are limited to our local service area. Due to the size and logistics involved, we are unable to accommodate these projects.\n\n" ++ optionsBullets

/-- Rule 5 response body (src/app.py lines 362-372, identical text to rule 4). -/
def outOfStateDetachableBody (firstName : String) : String :=
  "Hi " ++ firstName ++ ",\n\nThank you for your interest in ReLeather.\n\nPlease note that we are located in Southern California, and unfortunately, large and fixed seating upholstery services are limited to our local service area. Due to the size and logistics involved, we are unable to accommodate these projects.\n\n" ++ optionsBullets

/-- Rule 6 response body (src/app.py lines 389-398). -/
def generalOutOfStateBody (firstName : String) : String :=
  "Hi " ++ firstName ++ ",\n\nThank you for your interest in ReLeather.\n\nPlease note that we are located in Southern California, and unfortunately, we are unable to accommodate projects out of our service area.\n\nHowever, we’re happy to offer the following options that may support your project:\n\n• If you are sourcing leather for your own project, we recommend visiting [https://www.releather.com/leather-for-upholstery](https://www.releather.com/leather-for-upholstery) for a wide selection of premium hides.\n• For ongoing care of your leather, we offer a gentle, high-quality leather conditioner suitable for most leather types. You can find it here: [releather.com/leather-conditioner](https://releather.com/leather-conditioner)"

/-- Rule 7 response body (src/app.py lines 414-418). -/
def carDyeingBody (firstName serviceType itemType : String) : String :=
  "Hi " ++ firstName ++ ",\n\nThank you for your interest in ReLeather.\n\nHowever, we do not offer " ++ serviceType ++ " services for " ++ itemType ++ "s. We restore and re-dye car seats to their original color. For more information, please visit: https://www.releather.com/auto-leather-dyeing"

/-- Rule 8 response body (src/app.py lines 434-438; the doubled
"Thank thank" is in the source). -/
def bagCoatBody (firstName serviceType itemType : String) : String :=
  "Hi " ++ firstName ++ ",\n\nThank thank you for your interest in ReLeather.\n\nHowever, we do not offer " ++ serviceType ++ " services for " ++ itemType ++ "s. We restore and re-dye " ++ itemType ++ "s to their original color. For more information, please visit: https://www.releather.com/gallery/leather-redyeing-handbag and https://www.releather.com/leather-restoration-jackets-coats"

/-! ### The five response blocks (src/app.py lines 453-587) -/

/-- The Foam Replacement & Restuffing cushion explanation with its pricing
sub-table (src/app.py lines 474-488, trailing spaces preserved). -/
def foamCushionText : String :=
  "This service replaces the seat cushion core with high-resilience (HR) grade foam and adds polyester fiber padding for a fuller, more structured look. We offer HR foam in soft, medium, and firm densities to suit your comfort preference.\n\nFoam Replacement Pricing \nStandard Sofa Seat Cushion: $300–450 each \nReference dimensions: \n– Thickness: 4\" to 6\" \n– Width: 22\" to 26\"\n– Depth: 20\" to 24\"\n\nLarger Seat Cushions: $475–$550 each \nCommon for oversized or deep-seat sofas. \nReference dimensions: \n– Thickness: 5\" to 8\" \n– Width: 26\" to 32\" \n– Depth: 24\" to 34\" "

/-- `explanation_block` (src/app.py lines 460-488). -/
def explanationBlock (serviceType itemType colorSelection : String) : String :=
  if serviceType = "Leather Restoration" then
    "This service addresses surface wear such as color fading, light scratches, scuffs, stains, and spotting. It also restores the leather’s original uniform color and matte finish. We complete the process with a protective coating to prevent color transfer."
  else if serviceType = "Leather Cleaning & Conditioning" then
    "Leather cleaning removes surface dirt and build up, deep cleans the leather surface. Leather Conditioning moisturizes, softens, strengthens, polishes the leather, and prevents water spotting and cracking. Leather Retouching treats minor scuffs and discoloration, and renews color finish. Leather Protection applies a finish protection."
  else if serviceType = "Leather Reupholstery" ∧ ["Sofa", "Chair", "Cushion"].contains itemType then
    "Our Full Leather Upholstery service replacing all upholstery with new leather of your choice. We offer a wide selection of colors, textures, and finishes. If only certain cushions or sections are being replaced, our Partial Leather Upholstery service recovers damaged leather with closely matching leather. This requires purchasing new leather and disassembly of the upholstery."
  else if serviceType = "Leather Dyeing (Color Change)" ∧ ["Sofa", "Chair", "Cushion", "Bag", "Coat"].contains itemType then
    let base := "This service treats the old finish and dyes the leather in your selected color — " ++ colorSelection ++ ". It also refreshes the overall finish of the " ++ itemType ++ ", enhancing both appearance and longevity. We complete the process with a protective topcoat to prevent color transfer."
    if colorSelection = "Other" then
      base ++ " Feel free to browse available color options for your item here: https://www.releather.com/services/leather-dyeing#ColorOptions"
    else base
  else if serviceType = "Foam Replacement & Restuffing" then
    if ["Sofa", "Chair"].contains itemType then
      "This service replaces the seat cushion core with high-resilience (HR) grade foam and adds polyester fiber padding for a fuller, more structured look. We offer HR foam in soft, medium, and firm densities to suit your comfort preference."
    else if itemType = "Cushion" then foamCushionText
    else ""
  else ""

/-- `disclaimer_block` (src/app.py lines 492-501): sequential `+=` clauses. -/
def disclaimerBlock (serviceType itemType : String) (outState : Bool) : String :=
  let b := ""
  let b :=
    if serviceType = "Leather Restoration" ∧ itemType = "Cushion" then
      b ++ "Treating a single section or cushion may result in a visible mismatch with the rest of the upholstery. While we strive to achieve the best color match, existing patina can prevent a completely seamless blend. As an alternative, we recommend Full Leather Restoration, which treats the entire piece, addressing all surface wear and restoring a uniform color and finish."
    else b
  let b :=
    if serviceType = "Leather Reupholstery" ∧ ["Sofa", "Chair", "Cushion"].contains itemType then
      b ++ "We source a leather that closely matches your original, but the worn-in patina of your existing leather may not match the new material seamlessly." ++
        (if outState then " To ensure accurate measurements and pattern matching, we require the original seat cover for each unique cushion size mailed to us." else "")
    else b
  let b :=
    if serviceType = "Leather Dyeing (Color Change)" ∧ ["Sofa", "Chair", "Cushion", "Bag", "Coat"].contains itemType then
      (if b ≠ "" then b ++ " " else b) ++ "The new surface coating applied during dyeing may reduce the suppleness of the leather. Accent stitching will be dyed to match the new leather color. While we carefully mask the fabric strip and lining during restoration, some dye transfer may occur. We take precautions to minimize this."
    else b
  b

/-- `estimate_block` (src/app.py lines 504-551). -/
def estimateBlock (serviceType itemType cushionMode : String) : String :=
  if serviceType = "Leather Restoration" then
    if itemType = "Car" then "$550–$650 per seat. Discount available for multiple seats or full interior"
    else if itemType = "Sofa" then "$1800-2200 per sofa."
    else if itemType = "Chair" then "$800-1200 per chair."
    else if itemType = "Cushion" then "$450-650 per cushion."
    else ""
  else if serviceType = "Leather Cleaning & Conditioning" then
    if itemType = "Sofa" then "$900-1200 per sofa."
    else if itemType = "Chair" then "$600-800 per chair."
    else if itemType = "Cushion" then "$450-650 per cushion."
    else if itemType = "Car" then "$450-650 per seat."
    else if ["Bag", "Coat"].contains itemType then "$250-350 per item."
    else ""
  else if serviceType = "Leather Reupholstery" then
    if itemType = "Sofa" then "$6500-8500 per sofa."
    else if itemType = "Chair" then "$3500-4500 per chair."
    else if itemType = "Cushion" then
      if cushionMode = "Detachable" then "$850-1200 per cushion."
      else if cushionMode = "Fixed" then "$1200-1400 per cushion."
      else ""
    else ""
  else if serviceType = "Leather Dyeing (Color Change)" then
    if itemType = "Sofa" then "$2500-2800 per Sofa."
    else if itemType = "Chair" then "$1600-1800 per Chair."
    else if itemType = "Cushion" then "$550-650 per Cushion."
    else if itemType = "Bag" then "$350"
    else if itemType = "Coat" then "$550"
    else ""
  else if serviceType = "Foam Replacement & Restuffing" then
    if itemType = "Sofa" then "$1200-1500 per sofa. Additional labor cost for fixed seating."
    else if itemType = "Chair" then "$850-950 per chair. Additional labor cost for fixed seating."
    else if itemType = "Cushion" then "$350-450 per cushion. Additional labor cost for fixed seating."
    else ""
  else ""

/-- `completion_block` (src/app.py lines 554-569). -/
def completionBlock (serviceType itemType : String) : String :=
  if serviceType = "Leather Restoration" ∧ itemType = "Car" then
    "1-day turnaround. All work is completed at our shop."
  else if serviceType = "Leather Restoration" ∧ ["Sofa", "Chair", "Cushion"].contains itemType then
    "2 weeks."
  else if ["Leather Cleaning & Conditioning", "Leather Dyeing (Color Change)"].contains serviceType ∧
      ["Sofa", "Chair", "Cushion", "Bag", "Coat"].contains itemType then
    "1-2 weeks."
  else if serviceType = "Leather Reupholstery" then
    if ["Sofa", "Chair"].contains itemType then "3-4 weeks."
    else if itemType = "Cushion" then "2 weeks."
    else ""
  else if serviceType = "Leather Dyeing (Color Change)" ∧ ["Sofa", "Chair", "Bag", "Coat"].contains itemType then
    "2 weeks."
  else if serviceType = "Foam Replacement & Restuffing" ∧ ["Sofa", "Chair", "Cushion"].contains itemType then
    "2 weeks."
  else ""

/-- `delivery_block` (src/app.py lines 572-587). -/
def deliveryBlock (serviceType itemType : String) (zip : Option Int) (county : String) (outState : Bool) : String :=
  if serviceType = "Leather Restoration" ∧ itemType = "Car" then
    "Service location:\nReLeather\n751 S State College Blvd, Unit 38\nFullerton, CA 92831"
  else if ["Leather Restoration", "Leather Dyeing (Color Change)", "Leather Cleaning & Conditioning"].contains serviceType ∧
      ["Bag", "Coat"].contains itemType then
    "Drop-off by appointment at our Fullerton, CA shop. Non-local clients can ship items. Return Shipping is $25 or waived with a prepaid return label."
  else if inServiceArea zip ∧ ["Sofa", "Chair"].contains itemType then
    "Free Pick-up and delivery in Orange County."
  else if county ≠ "" then
    "Pick-up and delivery available in " ++ county ++ " for $200 (round trip)."
  else if outState then
    "Return shipping is quoted separately.\n\nShipping instructions for mailed-in orders will be provided after confirming your order."
  else ""

/-- `email_subject` in the composable path (src/app.py line 590). -/
def emailSubject (serviceType : String) : String :=
  if serviceType ≠ "" then serviceType ++ " Estimate – ReLeather"
  else "ReLeather Service Inquiry"

structure Blocks where
  explanation : String
  disclaimer : String
  estimate : String
  completion : String
  delivery : String

/-- The five blocks as the composable path computes them. -/
def composeBlocks (f : Fields) : Blocks :=
  { explanation := explanationBlock f.serviceType f.itemType f.colorSelection
    disclaimer := disclaimerBlock f.serviceType f.itemType (isOutOfState f.zip)
    estimate := estimateBlock f.serviceType f.itemType f.cushionMode
    completion := completionBlock f.serviceType f.itemType
    delivery := deliveryBlock f.serviceType f.itemType f.zip (countyName f.zip) (isOutOfState f.zip) }

/-- Either a terminal critical-rule response (rule number, subject, body)
or the composable continuation carrying the blocks and the subject line. -/
inductive ClassificationResult where
  | critical (ruleId : Nat) (subject : String) (body : String)
  | composable (blocks : Blocks) (subject : String)

/-- The ordered critical-rule chain of the webhook handler
(src/app.py lines 257-449), first match wins, falling through to block
composition (lines 453-590). -/
def classify (f : Fields) : ClassificationResult :=
  if strContains (fullTextData f) "bonded" then
    .critical 1 "ReLeather Inquiry - Bonded/Faux Leather" (bondedBody f.firstName)
  else if strContains (fullTextData f) "low-grade" then
    .critical 2 "ReLeather Inquiry - Low-Grade Leather" (lowGradeBody f.firstName)
  else if !f.anyFilesUploaded then
    .critical 3 ("ReLeather Inquiry for " ++ f.itemType) (noFilesBody f.firstName f.serviceType f.itemType)
  else if ["Leather Restoration", "Leather Cleaning & Conditioning", "Leather Dyeing (Color Change)", "Foam Replacement"].contains f.serviceType ∧
      ["Sofa", "Chair", "Cushion"].contains f.itemType ∧
      f.cushionMode = "Fixed" ∧ isOutOfState f.zip then
    .critical 4 "ReLeather Inquiry - Out-of-State Service" (outOfStateFixedBody f.firstName)
  else if ["Leather Reupholstery", "Foam Replacement & Restuffing"].contains f.serviceType ∧
      ["Sofa", "Chair"].contains f.itemType ∧
      f.cushionMode = "Detachable" ∧ isOutOfState f.zip then
    .critical 5 "ReLeather Inquiry - Out-of-State Service" (outOfStateDetachableBody f.firstName)
  else if ["Leather Restoration", "Leather Cleaning & Conditioning", "Leather Dyeing (Color Change)", "Leather Reupholstery"].contains f.serviceType ∧
      ["Car", "Sofa", "Chair"].contains f.itemType ∧ isOutOfState f.zip then
    .critical 6 "ReLeather Inquiry - Out-of-State Service" (generalOutOfStateBody f.firstName)
  else if ["Leather Dyeing (Color Change)", "Leather Reupholstery"].contains f.serviceType ∧ f.itemType = "Car" then
    .critical 7 ("ReLeather Inquiry - " ++ f.serviceType ++ " for " ++ f.itemType)
      (carDyeingBody f.firstName f.serviceType f.itemType)
  else if f.serviceType = "Leather Reupholstery" ∧ ["Bag", "Coat"].contains f.itemType then
    .critical 8 ("ReLeather Inquiry - " ++ f.serviceType ++ " for " ++ f.itemType)
      (bagCoatBody f.firstName f.serviceType f.itemType)
  else
    .composable (composeBlocks f) (emailSubject f.serviceType)

/-- Rule number of a critical match, 0 for the composable continuation. -/
def ruleIdOf : ClassificationResult → Nat
  | .critical i _ _ => i
  | .composable _ _ => 0

def isComposable : ClassificationResult → Bool
  | .critical _ _ _ => false
  | .composable _ _ => true

def resultExplanation : ClassificationResult → String
  | .critical _ _ _ => ""
  | .composable b _ => b.explanation

def resultDisclaimer : ClassificationResult → String
  | .critical _ _ _ => ""
  | .composable b _ => b.disclaimer

def resultDelivery : ClassificationResult → String
  | .critical _ _ _ => ""
  | .composable b _ => b.delivery

/-! ### The assembled template (src/app.py lines 595-608)

The composable path interpolates the blocks into a fixed template whose
lines — including every block label — appear unconditionally. -/

/-- The `gemini_prompt` f-string (src/app.py lines 595-608), with the six
interpolation slots as arguments, in source order. -/
def geminiPrompt (firstName serviceType pluralItem explanation disclaimer estimate completion delivery : String) : String :=
  "Use the ReLeather Email Template verbatim to respond to a customer inquiry from Fillout form submission data. Do not paraphrase any of the provided wording. Keep formatting as is and use HTML <br/> tags for line breaks.\n\nHere is the ReLeather Email Template:\n  \nHi " ++
  firstName ++ ", <br/>\nThank you for your interest in ReLeather.<br/>\nBased on the information provided, we recommend our " ++
  serviceType ++ " for your " ++ pluralItem ++ ".<br/>\n" ++
  explanation ++ "<br/>\n" ++ "Please note: " ++
  disclaimer ++ "<br/>\n" ++ "Estimated cost: " ++
  estimate ++ ".<br/>\n" ++ "Completion time: " ++
  completion ++ "<br/>\n" ++
  delivery ++ "<br/>\nPlease feel free to contact us with any questions or to proceed with your order.\n---"

/-- The template the composable path assembles for a given field set. -/
def assembledPrompt (f : Fields) : String :=
  let b := composeBlocks f
  geminiPrompt f.firstName f.serviceType
    (pluralItemType f.itemType f.numSofas f.numChairs f.numCushions)
    b.explanation b.disclaimer b.estimate b.completion b.delivery

/-! ### Question values and field extraction (src/app.py lines 57-81, 174-229)

`Value` models the JSON-ish values Fillout submits. Fallible steps (Python
attribute errors on unexpected types) are modelled with `Except`. -/

inductive Value where
  | null
  | str (s : String)
  | num (n : Int)
  | vBool (b : Bool)
  | vList (vs : List Value)
  | vDict (entries : List (String × Value))

/-- Python truthiness of a value. -/
def pyTruthy : Value → Bool
  | .null => false
  | .str s => s ≠ ""
  | .num n => n ≠ 0
  | .vBool b => b
  | .vList vs => !vs.isEmpty
  | .vDict es => !es.isEmpty

def Value.isNull : Value → Bool
  | .null => true
  | _ => false

def vIsDict : Value → Bool
  | .vDict _ => true
  | _ => false

mutual
/-- Model of Python `repr` for nested values (string escaping inside the
quotes is not modelled; no claim depends on it). -/
def pyRepr : Value → String
  | .null => "None"
  | .str s => "\x27" ++ s ++ "\x27"
  | .num n => toString n
  | .vBool b => if b then "True" else "False"
  | .vList vs => "[" ++ pyReprList vs ++ "]"
  | .vDict es => "\x7b" ++ pyReprEntries es ++ "\x7d"

def pyReprList : List Value → String
  | [] => ""
  | [v] => pyRepr v
  | v :: rest => pyRepr v ++ ", " ++ pyReprList rest

def pyReprEntries : List (String × Value) → String
  | [] => ""
  | [e] => "\x27" ++ e.1 ++ "\x27: " ++ pyRepr e.2
  | e :: rest => "\x27" ++ e.1 ++ "\x27: " ++ pyRepr e.2 ++ ", " ++ pyReprEntries rest
end

/-- Model of Python `str`. -/
def pyStr : Value → String
  | .null => "None"
  | .str s => s
  | .num n => toString n
  | .vBool b => if b then "True" else "False"
  | .vList vs => pyRepr (.vList vs)
  | .vDict es => pyRepr (.vDict es)

/-- One Fillout question (`{"name": ..., "value": ...}`); a missing
`value` key is `Value.null`, matching `q.get('value', None)`. -/
structure Question where
  name : String
  value : Value

/-- Python-side join of a non-empty list value:
`", ".join(str(v) for v in value if v is not None)` (src/app.py line 74). -/
def joinListItems (vs : List Value) : String :=
  String.intercalate ", " ((vs.filter (fun v => !v.isNull)).map pyStr)

/-- `get_question_value` (src/app.py lines 57-81): first question with the
given name decides; `None` and the empty list fall back to the default, a
non-empty list joins its non-`None` items, a dict passes through, any other
value is stringified. -/
def get_question_value : List Question → String → Value → Value
  | [], _, dflt => dflt
  | q :: rest, name, dflt =>
    if q.name = name then
      match q.value with
      | .null => dflt
      | .vList vs => if vs.isEmpty then dflt else .str (joinListItems vs)
      | .vDict es => .vDict es
      | v => .str (pyStr v)
    else get_question_value rest name dflt

/-- Digit-class characters that `str.isdigit()` accepts but `int()`
refuses (Unicode Numeric_Type Digit outside the decimal Nd category);
modelled set: the superscript digits, such as U+00B2 in `"²"`. -/
def pyDigitNonDecimal (c : Char) : Bool :=
  c == '⁰' || c == '¹' || c == '²' || c == '³' || c == '⁴' ||
  c == '⁵' || c == '⁶' || c == '⁷' || c == '⁸' || c == '⁹'

/-- Python `str.isdigit()` on one character, over the modelled character
set: ASCII decimal digits plus the digit-class non-decimal characters of
`pyDigitNonDecimal` (non-ASCII decimal digits are outside the model). -/
def pyIsDigit (c : Char) : Bool :=
  c.isDigit || pyDigitNonDecimal c

/-- A count string on which `int(s) if s and s.isdigit() else 0` provably
cannot raise in Python, whatever characters exist beyond the modelled set:
empty (falsy), all ASCII decimal digits (`int` parses), or containing an
ASCII non-digit character (`isdigit()` is false, so `int` is not called). -/
def countSafeStr (s : String) : Bool :=
  s == "" || s.data.all Char.isDigit ||
  s.data.any (fun c => decide (c.toNat < 128) && !c.isDigit)

def countSafeValue : Value → Bool
  | .str s => countSafeStr s
  | _ => true

/-- `int(s) if s and s.isdigit() else 0` on a looked-up count value
(src/app.py lines 189-191). An `.isdigit()` call on a truthy non-string
raises `AttributeError`; on a truthy all-digit-class string with a
non-decimal digit (such as `"²"`), `isdigit()` is true but the unguarded
`int(s)` raises `ValueError`. `get_question_value` only ever produces
strings or dicts here; the remaining cases follow Python truthiness. -/
def parseCount : Value → Except String Nat
  | .str s =>
    if s ≠ "" ∧ s.data.all pyIsDigit then
      if s.data.all Char.isDigit then .ok ((pyIntDigits s.data).getD 0)
      else .error "ValueError"
    else .ok 0
  | .vDict es => if es.isEmpty then .ok 0 else .error "AttributeError"
  | .null => .ok 0
  | .num n => if n = 0 then .ok 0 else .error "AttributeError"
  | .vBool b => if b then .error "AttributeError" else .ok 0
  | .vList vs => if vs.isEmpty then .ok 0 else .error "AttributeError"

/-- `value.strip()` on a looked-up upload value (src/app.py line 198):
raises `AttributeError` on a non-string. -/
def stripValue : Value → Except String String
  | .str s => .ok (pyStrip s)
  | _ => .error "AttributeError"

/-- `any(value.strip() != "" for value in ...)` (src/app.py line 198):
the generator strips lazily and short-circuits at the first non-blank. -/
def anyUploadedE : List Value → Except String Bool
  | [] => .ok false
  | v :: rest => do
    let s ← stripValue v
    if s ≠ "" then pure true else anyUploadedE rest

/-- `plural_item_type` over a raw looked-up item value (src/app.py lines
200-217): `.lower()` on a truthy dict raises `AttributeError`. -/
def pluralOfE (item : Value) (total : Nat) : Except String Value :=
  if pyTruthy item then
    if total > 1 then
      match item with
      | .str s =>
        let l := lowerStr s
        .ok (.str (if l = "sofa" then "sofas"
          else if l = "chair" then "chairs"
          else if l = "cushion" then "cushions"
          else if l = "bag" then "bags"
          else if l = "coat" then "coats"
          else if l = "car" then "cars"
          else s ++ "s"))
      | _ => .error "AttributeError"
    else if total = 1 then .ok item
    else
      match item with
      | .str s => .ok (.str (if ["bag", "coat", "car"].contains (lowerStr s) then s ++ "s" else s))
      | _ => .error "AttributeError"
  else .ok item

/-- `int(zip_code_str)` guarded by truthiness inside
`try/except (ValueError, TypeError)` (src/app.py lines 219-224): every
failure is caught, leaving `none`. -/
def pyIntValue (v : Value) : Option Int :=
  if pyTruthy v then
    match v with
    | .str s => pyParseInt s
    | .num n => some n
    | .vBool _ => some 1
    | _ => none
  else none

def dictLookup (es : List (String × Value)) (k : String) : Option Value :=
  (es.find? (fun e => e.1 = k)).map (fun e => e.2)

/-- The raw extracted state of the handler after src/app.py lines 174-229,
with the source's variable names. -/
structure RawFields where
  customer_first_name : Value
  customer_email : Value
  service_type : Value
  item_type : Value
  color_selection : Value
  cushions_detachable_fixed : Value
  num_sofas : Nat
  num_chairs : Nat
  num_cushions : Nat
  share_further_details : Value
  any_files_uploaded : Bool
  plural_item_type : Value
  zip_code : Option Int
  addr_state : Value

/-- Field extraction (src/app.py lines 174-229) with the raising steps in
source order: the three count parses, then the upload test, then the plural
computation; the ZIP parse never raises (its exceptions are caught). -/
def extractRaw (qs : List Question) : Except String RawFields := do
  let customer_first_name := get_question_value qs "First Name" (.str "")
  let customer_email := get_question_value qs "Email" (.str "")
  let service_type := get_question_value qs "What leather service are you interested in?" (.str "")
  let item_type := get_question_value qs "What type of leather item?" (.str "")
  let color_selection := get_question_value qs "Color Selection" (.str "")
  let cushions_detachable_fixed := get_question_value qs "Are the seat cushions detachable or fixed to the furniture?" (.str "")
  let share_further_details := get_question_value qs "Share further details:" (.str "")
  let address_field_value := get_question_value qs "Untitled Address field" (.vDict [])
  let zip_code_val := match address_field_value with
    | .vDict es => (dictLookup es "zipCode").getD (.str "")
    | _ => .str ""
  let addr_state := match address_field_value with
    | .vDict es => (dictLookup es "state").getD (.str "")
    | _ => .str ""
  let num_sofas ← parseCount (get_question_value qs "How many sofas?" (.str "0"))
  let num_chairs ← parseCount (get_question_value qs "How many chairs?" (.str "0"))
  let num_cushions ← parseCount (get_question_value qs "How many cushions?" (.str "0"))
  let any_files_uploaded ← anyUploadedE
    [get_question_value qs "Upload a file (1)" (.str ""),
     get_question_value qs "Upload a file (2)" (.str ""),
     get_question_value qs "Upload a file (3)" (.str ""),
     get_question_value qs "Upload a file (5)" (.str ""),
     get_question_value qs "Upload a file" (.str ""),
     get_question_value qs "Upload a file (4)" (.str "")]
  let plural_item_type ← pluralOfE item_type (num_sofas + num_chairs + num_cushions)
  let zip_code := pyIntValue zip_code_val
  return { customer_first_name, customer_email, service_type, item_type,
           color_selection, cushions_detachable_fixed, num_sofas, num_chairs,
           num_cushions, share_further_details, any_files_uploaded,
           plural_item_type, zip_code, addr_state }

/-! ### Specification-worded comparison definitions

These follow the wording of the spec sentences under test, to be compared
with the definitions transcribed from the source. -/

/-- Join of a list value exactly as claim C6 words it: "its items
stringified and joined with `\", \"`" — all items, no `None` filtering. -/
def joinAllItems (vs : List Value) : String :=
  String.intercalate ", " (vs.map pyStr)

/-- The lookup as claim C6 words it, differing from the source only in the
non-empty-list arm (all items joined, `None` items included). -/
def getQuestionValueClaimed : List Question → String → Value → Value
  | [], _, dflt => dflt
  | q :: rest, name, dflt =>
    if q.name = name then
      match q.value with
      | .null => dflt
      | .vList vs => if vs.isEmpty then dflt else .str (joinAllItems vs)
      | .vDict es => .vDict es
      | v => .str (pyStr v)
    else getQuestionValueClaimed rest name dflt

/-- The per-value coercion of `get_question_value` on a matched question,
stated once (amended claim C6). -/
def coerceValue (dflt : Value) : Value → Value
  | .null => dflt
  | .vList vs => if vs.isEmpty then dflt else .str (joinListItems vs)
  | .vDict es => .vDict es
  | v => .str (pyStr v)

/-- First-occurrence lookup as the amended claim C6 words it: the first
question bearing the name decides; its value is coerced; absent name
yields the default. -/
def lookupFirstCoerced (qs : List Question) (name : String) (dflt : Value) : Value :=
  match qs.find? (fun q => q.name = name) with
  | none => dflt
  | some q => coerceValue dflt q.value

/-- Pluralization exactly as claim C8 words it (irregular map on the
lowercase form when the explicit total exceeds 1, singular at exactly 1,
always-plural set {bag, coat, car} at 0). -/
def pluralizeSpec (item : String) (nSofas nChairs nCushions : Nat) : String :=
  let total := nSofas + nChairs + nCushions
  if total > 1 then
    let l := lowerStr item
    if l = "sofa" then "sofas"
    else if l = "chair" then "chairs"
    else if l = "cushion" then "cushions"
    else if l = "bag" then "bags"
    else if l = "coat" then "coats"
    else if l = "car" then "cars"
    else item ++ "s"
  else if total = 1 then item
  else if ["bag", "coat", "car"].contains (lowerStr item) then item ++ "s"
  else item

/-! ### Concrete inputs used by the claim theorems and witnesses -/

/-- A submission whose further details mention bonded leather (claim C3
witness); no files are uploaded, so rule 3 would match as well. -/
def bondedFields : Fields :=
  { firstName := "Pat", email := "p@example.com", serviceType := "Leather Restoration"
    itemType := "Sofa", colorSelection := "", cushionMode := ""
    numSofas := 1, numChairs := 0, numCushions := 0
    furtherDetails := "I think it is Bonded leather"
    anyFilesUploaded := false, zip := some 92801 }

/-- A no-files submission on which rule 4's predicate also holds
(out-of-state fixed furniture) — claim C4 witness. -/
def ruleOverlapFields : Fields :=
  { firstName := "Sam", email := "s@example.com", serviceType := "Leather Restoration"
    itemType := "Sofa", colorSelection := "", cushionMode := "Fixed"
    numSofas := 1, numChairs := 0, numCushions := 0, furtherDetails := ""
    anyFilesUploaded := false, zip := some 10001 }

/-- The claim C5 scenario: dyeing a cushion, color "Other", ZIP 92801,
files uploaded. -/
def dyeingCushionFields : Fields :=
  { firstName := "Ana", email := "a@example.com", serviceType := "Leather Dyeing (Color Change)"
    itemType := "Cushion", colorSelection := "Other", cushionMode := ""
    numSofas := 0, numChairs := 0, numCushions := 1, furtherDetails := ""
    anyFilesUploaded := true, zip := some 92801 }

/-- A composable submission whose disclaimer and delivery blocks are both
empty (restoration of a sofa, files uploaded, no ZIP) — claim C9
counterexample input. -/
def restorationSofaFields : Fields :=
  { firstName := "Bo", email := "b@example.com", serviceType := "Leather Restoration"
    itemType := "Sofa", colorSelection := "", cushionMode := ""
    numSofas := 1, numChairs := 0, numCushions := 0, furtherDetails := ""
    anyFilesUploaded := true, zip := none }

/-- A submission with files uploaded and no ZIP — claim C10 witness. -/
def noZipFields : Fields :=
  { firstName := "Kim", email := "k@example.com", serviceType := "Leather Restoration"
    itemType := "Sofa", colorSelection := "", cushionMode := "Fixed"
    numSofas := 1, numChairs := 0, numCushions := 0, furtherDetails := ""
    anyFilesUploaded := true, zip := none }

/-- A structurally valid submission whose count question carries a map
value — claim C7 counterexample input. -/
def countDictQuestions : List Question :=
  [⟨"How many sofas?", .vDict [("n", .num 2)]⟩]

/-- A question whose value is a non-empty list holding only `None` —
claim C6 counterexample input. -/
def listNoneQuestions : List Question :=
  [⟨"x", .vList [.null]⟩]

/-! ### Helper lemmas -/

theorem gqv_str_of_not_dict (qs : List Question) (name d : String)
    (h : vIsDict (get_question_value qs name (.str d)) = false) :
    ∃ s, get_question_value qs name (.str d) = .str s := by
  induction qs with
  | nil => exact ⟨d, rfl⟩
  | cons q rest ih =>
    by_cases hq : q.name = name
    · cases hv : q.value with
      | null => exact ⟨d, by simp [get_question_value, hq, hv]⟩
      | str s => exact ⟨s, by simp [get_question_value, hq, hv, pyStr]⟩
      | num n => exact ⟨pyStr (.num n), by simp [get_question_value, hq, hv]⟩
      | vBool b => exact ⟨pyStr (.vBool b), by simp [get_question_value, hq, hv]⟩
      | vList vs =>
        by_cases he : vs.isEmpty
        · exact ⟨d, by simp [get_question_value, hq, hv, he]⟩
        · exact ⟨joinListItems vs, by simp [get_question_value, hq, hv, he]⟩
      | vDict es =>
        exfalso
        simp [get_question_value, hq, hv, vIsDict] at h
    · simp only [get_question_value, if_neg hq] at h ⊢
      exact ih h

theorem pyDigitNonDecimal_large (c : Char) (h : pyDigitNonDecimal c = true) : 128 ≤ c.toNat := by
  unfold pyDigitNonDecimal at h
  simp only [Bool.or_eq_true, beq_iff_eq] at h
  rcases h with (((((((((h | h) | h) | h) | h) | h) | h) | h) | h) | h) <;> subst h <;> decide

theorem all_pyIsDigit_of_all_digit (l : List Char) (h : l.all Char.isDigit = true) :
    l.all pyIsDigit = true := by
  simp only [List.all_eq_true] at h ⊢
  intro c hc
  simp [pyIsDigit, h c hc]

theorem parseCount_ok_of_safe (s : String) (h : countSafeStr s = true) :
    ∃ n, parseCount (.str s) = .ok n := by
  by_cases he : s = ""
  · exact ⟨0, by simp [parseCount, he]⟩
  · unfold countSafeStr at h
    simp only [Bool.or_eq_true, beq_iff_eq] at h
    rcases h with (h | h) | h
    · exact absurd h he
    · exact ⟨(pyIntDigits s.data).getD 0, by
        simp [parseCount, he, h, all_pyIsDigit_of_all_digit _ h]⟩
    · have hall : s.data.all pyIsDigit = false := by
        simp only [List.any_eq_true, Bool.and_eq_true, decide_eq_true_eq,
          Bool.not_eq_true'] at h
        obtain ⟨c, hc, hlt, hnd⟩ := h
        refine List.all_eq_false.mpr ⟨c, hc, ?_⟩
        have hq : pyDigitNonDecimal c = false := by
          by_contra hq
          have hge := pyDigitNonDecimal_large c (by
            revert hq
            simp)
          omega
        simp [pyIsDigit, hnd, hq]
      exact ⟨0, by simp [parseCount, hall]⟩

theorem anyUploadedE_ok_of_strs (l : List Value)
    (h : ∀ v ∈ l, ∃ s, v = Value.str s) : ∃ b, anyUploadedE l = .ok b := by
  induction l with
  | nil => exact ⟨false, rfl⟩
  | cons v rest ih =>
    obtain ⟨s, rfl⟩ := h v (by simp)
    have hrec := ih (fun w hw => h w (by simp [hw]))
    by_cases hs : pyStrip s ≠ ""
    · exact ⟨true, by simp [anyUploadedE, stripValue, Except.instMonad, Except.bind, Except.pure, hs]⟩
    · obtain ⟨b, hb⟩ := hrec
      exact ⟨b, by simp [anyUploadedE, stripValue, Except.instMonad, Except.bind, Except.pure, hs, hb]⟩

theorem pluralOfE_ok_of_str (s : String) (total : Nat) :
    ∃ v, pluralOfE (.str s) total = .ok v := by
  unfold pluralOfE
  split
  · split
    · exact ⟨_, rfl⟩
    · split
      · exact ⟨_, rfl⟩
      · exact ⟨_, rfl⟩
  · exact ⟨_, rfl⟩

theorem exceptBindOk {α β : Type} {x : Except String α} {f : α → Except String β}
    (hok : ∃ u, x = Except.ok u) (hcont : ∀ u, ∃ w, f u = Except.ok w) :
    ∃ w, (x >>= f) = Except.ok w := by
  rcases hok with ⟨u, hu⟩
  rcases hcont u with ⟨w, hw⟩
  refine ⟨w, ?_⟩
  rw [hu]
  simpa [Bind.bind, Except.bind] using hw

/-! ### Claim theorems -/

/-- C1 counterexample: contrary to the claim, ZIP 92860 lies in none of
rule 4's ranges (92300-92499, 92857-92859) and the county table resolves
it to "Orange County", not "San Bernardino County". -/
theorem zip92860_resolves_to_orange_county :
    countyName (some 92860) = "Orange County" ∧
    countyName (some 92860) ≠ "San Bernardino County" := by decide

/-- C1 (amended): for ZIP 92858 — which lies both in rule 4's 92857-92859
range and in rule 6's Orange range 92600-92899 — county resolution returns
"San Bernardino County": the first matching range in priority order (not
numeric order) decides the label. -/
theorem zip92858_priority_san_bernardino :
    countyName (some 92858) = "San Bernardino County" ∧
    inServiceArea (some 92858) = true ∧
    (92600 ≤ (92858 : Int) ∧ (92858 : Int) ≤ 92899) := by decide

/-- C2: whenever the ZIP string is absent or unparsable (the parse yields
`none`), geo classification degrades to unknown: the in-service-area flag
is false and the county label is empty; the computation is total. -/
theorem geo_degrades_to_unknown_without_zip (s : String) (h : parseZip s = none) :
    inServiceArea (parseZip s) = false ∧ countyName (parseZip s) = "" := by
  rw [h]; exact ⟨rfl, rfl⟩

theorem geo_degrades_to_unknown_without_zip_witness :
    parseZip "N/A" = none ∧
    (inServiceArea (parseZip "N/A") = false ∧ countyName (parseZip "N/A") = "") :=
  ⟨by decide, geo_degrades_to_unknown_without_zip "N/A" (by decide)⟩

/-- C3: whenever the lowercase space-joined concatenation of service type,
item type and further details contains "bonded", classification returns the
bonded critical match with its fixed subject and body, regardless of every
other field value; the composable block path is never reached. -/
theorem bonded_keyword_forces_bonded_match (f : Fields)
    (h : strContains (fullTextData f) "bonded" = true) :
    classify f = .critical 1 "ReLeather Inquiry - Bonded/Faux Leather" (bondedBody f.firstName) := by
  simp [classify, h]

theorem bonded_keyword_forces_bonded_match_witness :
    strContains (fullTextData bondedFields) "bonded" = true ∧
    classify bondedFields =
      .critical 1 "ReLeather Inquiry - Bonded/Faux Leather" (bondedBody bondedFields.firstName) :=
  ⟨by decide, bonded_keyword_forces_bonded_match bondedFields (by decide)⟩

/-- C4: with no "bonded"/"low-grade" keyword match and no uploaded files,
rule 3 produces the request-for-photos response for every field set — in
particular even when the predicates of rules 4-8 hold, since evaluation is
ordered and short-circuits at the first match. -/
theorem no_files_rule_fires_first (f : Fields)
    (h1 : strContains (fullTextData f) "bonded" = false)
    (h2 : strContains (fullTextData f) "low-grade" = false)
    (h3 : f.anyFilesUploaded = false) :
    classify f = .critical 3 ("ReLeather Inquiry for " ++ f.itemType)
      (noFilesBody f.firstName f.serviceType f.itemType) := by
  simp [classify, h1, h2, h3]

theorem no_files_rule_fires_first_witness :
    (strContains (fullTextData ruleOverlapFields) "bonded" = false ∧
     strContains (fullTextData ruleOverlapFields) "low-grade" = false ∧
     ruleOverlapFields.anyFilesUploaded = false ∧
     (["Leather Restoration", "Leather Cleaning & Conditioning", "Leather Dyeing (Color Change)", "Foam Replacement"].contains ruleOverlapFields.serviceType ∧
      ["Sofa", "Chair", "Cushion"].contains ruleOverlapFields.itemType ∧
      ruleOverlapFields.cushionMode = "Fixed" ∧ isOutOfState ruleOverlapFields.zip)) ∧
    classify ruleOverlapFields = .critical 3 ("ReLeather Inquiry for " ++ ruleOverlapFields.itemType)
      (noFilesBody ruleOverlapFields.firstName ruleOverlapFields.serviceType ruleOverlapFields.itemType) :=
  ⟨by decide, no_files_rule_fires_first ruleOverlapFields (by decide) (by decide) rfl⟩

/-- C5 counterexample: in the claimed scenario (Dyeing/Cushion/Other/92801
with files), the composed delivery block is not the free-pickup line and
mentions no free pickup at all — the free line requires itemType Sofa or
Chair. -/
theorem dyeing_cushion_delivery_not_free_pickup :
    isComposable (classify dyeingCushionFields) = true ∧
    resultDelivery (classify dyeingCushionFields) ≠ "Free Pick-up and delivery in Orange County." ∧
    strContains (resultDelivery (classify dyeingCushionFields)) "Free" = false ∧
    strContains (resultDelivery (classify dyeingCushionFields)) "free" = false := by decide

/-- C5 (amended): in that scenario no critical rule matches, the
explanation block contains the color-catalog link, and the delivery block
quotes the paid Orange County round-trip pickup for $200. -/
theorem dyeing_cushion_scenario_paid_pickup :
    isComposable (classify dyeingCushionFields) = true ∧
    strContains (resultExplanation (classify dyeingCushionFields))
      "https://www.releather.com/services/leather-dyeing#ColorOptions" = true ∧
    resultDelivery (classify dyeingCushionFields) =
      "Pick-up and delivery available in Orange County for $200 (round trip)." := by decide

/-- C6 counterexample: for a question whose value is the non-empty list
`[None]`, the source returns the empty string (it skips `None` items),
while the claimed coercion ("its items stringified and joined") yields
"None". -/
theorem list_lookup_skips_none_items :
    get_question_value listNoneQuestions "x" (.str "") = Value.str "" ∧
    getQuestionValueClaimed listNoneQuestions "x" (.str "") = Value.str "None" ∧
    Value.str "" ≠ Value.str "None" :=
  ⟨rfl, rfl, by intro h; injection h with h2; exact absurd h2 (by decide)⟩

/-- C6 (amended): field lookup returns the first question bearing the
name, coerced: `None` yields the default, a non-empty list joins its
non-`None` items stringified with ", " (a list of only `None` values gives
the empty string), an empty list yields the default, a map passes through
unchanged, any other scalar is stringified, and an absent name yields the
default. -/
theorem lookup_is_first_match_with_coercion (qs : List Question) (name : String) (dflt : Value) :
    get_question_value qs name dflt = lookupFirstCoerced qs name dflt := by
  induction qs with
  | nil => rfl
  | cons q rest ih =>
    by_cases h : q.name = name
    · cases hv : q.value <;>
        simp [get_question_value, lookupFirstCoerced, List.find?, h, hv, coerceValue]
    · simp only [get_question_value, lookupFirstCoerced, List.find?, h, if_neg h,
        decide_eq_true_eq] at ih ⊢
      simp [h, ih, lookupFirstCoerced]

/-- C7 counterexample: a structurally valid submission whose count question
carries a map value makes extraction raise (`.isdigit()` on a dict:
AttributeError), which the outer handler converts to a 500 error response —
so extraction is not total over arbitrary field value types. -/
theorem dict_count_value_raises_attribute_error :
    extractRaw countDictQuestions = .error "AttributeError" := rfl

/-- C7 (amended): extraction (and with it the total classification
pipeline) completes without an exception for every structurally valid
submission in which the three count lookups, the six upload-field lookups
and the item-type lookup do not yield map values, and each count lookup is
a safe count string: empty, all ASCII decimal digits, or containing an
ASCII non-digit character (so `isdigit()` is false or `int()` parses) —
ruling out digit-class non-decimal strings such as `"²"`, on which the
unguarded `int()` raises `ValueError`. -/
theorem extraction_ok_without_map_scalars (qs : List Question)
    (h1 : vIsDict (get_question_value qs "How many sofas?" (.str "0")) = false)
    (h1s : countSafeValue (get_question_value qs "How many sofas?" (.str "0")) = true)
    (h2 : vIsDict (get_question_value qs "How many chairs?" (.str "0")) = false)
    (h2s : countSafeValue (get_question_value qs "How many chairs?" (.str "0")) = true)
    (h3 : vIsDict (get_question_value qs "How many cushions?" (.str "0")) = false)
    (h3s : countSafeValue (get_question_value qs "How many cushions?" (.str "0")) = true)
    (h4 : vIsDict (get_question_value qs "Upload a file (1)" (.str "")) = false)
    (h5 : vIsDict (get_question_value qs "Upload a file (2)" (.str "")) = false)
    (h6 : vIsDict (get_question_value qs "Upload a file (3)" (.str "")) = false)
    (h7 : vIsDict (get_question_value qs "Upload a file (5)" (.str "")) = false)
    (h8 : vIsDict (get_question_value qs "Upload a file" (.str "")) = false)
    (h9 : vIsDict (get_question_value qs "Upload a file (4)" (.str "")) = false)
    (h10 : vIsDict (get_question_value qs "What type of leather item?" (.str "")) = false) :
    ∃ r, extractRaw qs = .ok r := by
  obtain ⟨s1, e1⟩ := gqv_str_of_not_dict qs _ _ h1
  obtain ⟨s2, e2⟩ := gqv_str_of_not_dict qs _ _ h2
  obtain ⟨s3, e3⟩ := gqv_str_of_not_dict qs _ _ h3
  obtain ⟨t1, f1⟩ := gqv_str_of_not_dict qs _ _ h4
  obtain ⟨t2, f2⟩ := gqv_str_of_not_dict qs _ _ h5
  obtain ⟨t3, f3⟩ := gqv_str_of_not_dict qs _ _ h6
  obtain ⟨t4, f4⟩ := gqv_str_of_not_dict qs _ _ h7
  obtain ⟨t5, f5⟩ := gqv_str_of_not_dict qs _ _ h8
  obtain ⟨t6, f6⟩ := gqv_str_of_not_dict qs _ _ h9
  obtain ⟨si, ei⟩ := gqv_str_of_not_dict qs _ _ h10
  rw [e1] at h1s
  rw [e2] at h2s
  rw [e3] at h3s
  simp only [countSafeValue] at h1s h2s h3s
  unfold extractRaw
  rw [e1, e2, e3, f1, f2, f3, f4, f5, f6, ei]
  apply exceptBindOk (parseCount_ok_of_safe s1 h1s); intro n1
  apply exceptBindOk (parseCount_ok_of_safe s2 h2s); intro n2
  apply exceptBindOk (parseCount_ok_of_safe s3 h3s); intro n3
  apply exceptBindOk (anyUploadedE_ok_of_strs _ ?_); swap
  · intro v hv
    simp only [List.mem_cons, List.not_mem_nil, or_false] at hv
    rcases hv with h | h | h | h | h | h <;> exact ⟨_, h⟩
  intro bu
  apply exceptBindOk (pluralOfE_ok_of_str si _)
  intro pv
  exact ⟨_, rfl⟩

theorem extraction_ok_without_map_scalars_witness :
    (vIsDict (get_question_value [] "How many sofas?" (.str "0")) = false ∧
     countSafeValue (get_question_value [] "How many sofas?" (.str "0")) = true ∧
     vIsDict (get_question_value [] "How many chairs?" (.str "0")) = false ∧
     countSafeValue (get_question_value [] "How many chairs?" (.str "0")) = true ∧
     vIsDict (get_question_value [] "How many cushions?" (.str "0")) = false ∧
     countSafeValue (get_question_value [] "How many cushions?" (.str "0")) = true ∧
     vIsDict (get_question_value [] "Upload a file (1)" (.str "")) = false ∧
     vIsDict (get_question_value [] "Upload a file (2)" (.str "")) = false ∧
     vIsDict (get_question_value [] "Upload a file (3)" (.str "")) = false ∧
     vIsDict (get_question_value [] "Upload a file (5)" (.str "")) = false ∧
     vIsDict (get_question_value [] "Upload a file" (.str "")) = false ∧
     vIsDict (get_question_value [] "Upload a file (4)" (.str "")) = false ∧
     vIsDict (get_question_value [] "What type of leather item?" (.str "")) = false) ∧
    (∃ r, extractRaw ([] : List Question) = .ok r) :=
  ⟨⟨rfl, by decide, rfl, by decide, rfl, by decide, rfl, rfl, rfl, rfl, rfl, rfl, rfl⟩,
   extraction_ok_without_map_scalars [] rfl (by decide) rfl (by decide) rfl (by decide)
     rfl rfl rfl rfl rfl rfl rfl⟩

/-- C8 counterexample: for the empty item reference with explicit counts
summing above 1, the source's `if item_type:` guard keeps the reference
empty, while the claimed rule ("pluralized via the fixed irregular map,
else appending s") yields "s" — so the claim fails at itemType "". -/
theorem empty_item_plural_diverges :
    pluralItemType "" 2 0 0 = "" ∧
    pluralizeSpec "" 2 0 0 = "s" ∧
    ("" : String) ≠ "s" := by decide

/-- C8 (amended): pluralization follows the claimed rule (irregular map
above 1 explicit item, singular at exactly 1, always-plural set
{bag, coat, car} at 0) for every nonempty item reference, while an empty
itemType keeps the empty reference whatever the counts — in particular
"Bag" with all counts 0 gives "Bags" and "Chair" with all counts 0 stays
"Chair". -/
theorem pluralization_follows_spec_rule (item : String) (nSofas nChairs nCushions : Nat) :
    pluralItemType item nSofas nChairs nCushions =
      (if item = "" then "" else pluralizeSpec item nSofas nChairs nCushions) ∧
    pluralItemType "Bag" 0 0 0 = "Bags" ∧
    pluralItemType "Chair" 0 0 0 = "Chair" := by
  refine ⟨?_, by decide, by decide⟩
  by_cases h : item = ""
  · simp [pluralItemType, h]
  · unfold pluralItemType pluralizeSpec
    rw [if_neg h, if_neg h]

/-- C9 counterexample: a composable submission with an empty disclaimer
block (and empty delivery block) still gets the label line "Please note: "
in the assembled draft — empty blocks contribute their label lines, contrary
to the claim. -/
theorem empty_disclaimer_block_still_labelled :
    isComposable (classify restorationSofaFields) = true ∧
    resultDisclaimer (classify restorationSofaFields) = "" ∧
    resultDelivery (classify restorationSofaFields) = "" ∧
    strContains (assembledPrompt restorationSofaFields) "Please note: <br/>" = true := by decide

/-- C9 (amended): the assembled template emits every block line
unconditionally — the label sentences "Please note: ", "Estimated cost: "
and "Completion time: " occur in the draft whatever the block contents,
empty or not. -/
theorem template_label_lines_unconditional (fn st pl ex d es cp dl : String) :
    (∃ a b, geminiPrompt fn st pl ex d es cp dl = a ++ "Please note: " ++ b) ∧
    (∃ a b, geminiPrompt fn st pl ex d es cp dl = a ++ "Estimated cost: " ++ b) ∧
    (∃ a b, geminiPrompt fn st pl ex d es cp dl = a ++ "Completion time: " ++ b) := by
  refine
    ⟨⟨"Use the ReLeather Email Template verbatim to respond to a customer inquiry from Fillout form submission data. Do not paraphrase any of the provided wording. Keep formatting as is and use HTML <br/> tags for line breaks.\n\nHere is the ReLeather Email Template:\n  \nHi " ++
        fn ++ ", <br/>\nThank you for your interest in ReLeather.<br/>\nBased on the information provided, we recommend our " ++
        st ++ " for your " ++ pl ++ ".<br/>\n" ++ ex ++ "<br/>\n",
      d ++ "<br/>\n" ++ "Estimated cost: " ++ es ++ ".<br/>\n" ++ "Completion time: " ++
        cp ++ "<br/>\n" ++ dl ++ "<br/>\nPlease feel free to contact us with any questions or to proceed with your order.\n---", ?_⟩,
     ⟨"Use the ReLeather Email Template verbatim to respond to a customer inquiry from Fillout form submission data. Do not paraphrase any of the provided wording. Keep formatting as is and use HTML <br/> tags for line breaks.\n\nHere is the ReLeather Email Template:\n  \nHi " ++
        fn ++ ", <br/>\nThank you for your interest in ReLeather.<br/>\nBased on the information provided, we recommend our " ++
        st ++ " for your " ++ pl ++ ".<br/>\n" ++ ex ++ "<br/>\n" ++ "Please note: " ++ d ++ "<br/>\n",
      es ++ ".<br/>\n" ++ "Completion time: " ++ cp ++ "<br/>\n" ++ dl ++
        "<br/>\nPlease feel free to contact us with any questions or to proceed with your order.\n---", ?_⟩,
     ⟨"Use the ReLeather Email Template verbatim to respond to a customer inquiry from Fillout form submission data. Do not paraphrase any of the provided wording. Keep formatting as is and use HTML <br/> tags for line breaks.\n\nHere is the ReLeather Email Template:\n  \nHi " ++
        fn ++ ", <br/>\nThank you for your interest in ReLeather.<br/>\nBased on the information provided, we recommend our " ++
        st ++ " for your " ++ pl ++ ".<br/>\n" ++ ex ++ "<br/>\n" ++ "Please note: " ++ d ++ "<br/>\n" ++
        "Estimated cost: " ++ es ++ ".<br/>\n",
      cp ++ "<br/>\n" ++ dl ++
        "<br/>\nPlease feel free to contact us with any questions or to proceed with your order.\n---", ?_⟩⟩ <;>
    simp [geminiPrompt, String.append_assoc]

/-- C10: when no ZIP was parsed, the out-of-state flag is false, so none of
the out-of-area critical rules 4, 5 or 6 can fire: a missing ZIP behaves
like an in-service-area one for critical-rule evaluation. -/
theorem missing_zip_never_out_of_area_rules (f : Fields) (h : f.zip = none) :
    isOutOfState f.zip = false ∧
    ruleIdOf (classify f) ≠ 4 ∧ ruleIdOf (classify f) ≠ 5 ∧ ruleIdOf (classify f) ≠ 6 := by
  have hz : isOutOfState f.zip = false := by rw [h]; rfl
  refine ⟨hz, ?_⟩
  unfold classify
  simp only [hz, Bool.false_eq_true, and_false, if_false]
  unfold ruleIdOf
  split
  next x i s b heq =>
    repeat' split at heq
    all_goals cases heq
    all_goals decide
  next x heq => decide

theorem missing_zip_never_out_of_area_rules_witness :
    noZipFields.zip = none ∧
    (isOutOfState noZipFields.zip = false ∧
     ruleIdOf (classify noZipFields) ≠ 4 ∧ ruleIdOf (classify noZipFields) ≠ 5 ∧
     ruleIdOf (classify noZipFields) ≠ 6) :=
  ⟨rfl, missing_zip_never_out_of_area_rules noZipFields rfl⟩

end ReLeather
